import Mathlib

/-!
Shallow embedding of the go-runtime-metrics repository (collector core,
pull-mode sink adapter, push-mode batching sender, health-check loop and
configuration resolution), with theorems settling the frozen claims.

Modelling conventions:
* Go machine integers are `Nat`/`Int`; `uint64`/`uint32` fields are `Nat`
  and the explicit Go conversions `int64(x)`/`int32(x)` wrap through
  `int64OfUnsigned`/`int32OfUnsigned`.
* `float64` values (only `GCCPUFraction`) are pure passthrough in the code;
  they are carried as an opaque `Int` payload, never computed with.
* Pointers that may be nil are `Option`; a nil-pointer dereference is the
  `GoPanic.nilDeref` error of an `Except`.
* The external sink (InfluxDB client) is an oracle of booleans giving the
  outcome of each fallible call, since the code only branches on whether
  those calls return an error.
-/

namespace RunMetrics

/-- Go `int64(x)` applied to an unsigned value: reduce mod 2^64 and
reinterpret the high range as negative. -/
def int64OfUnsigned (x : Nat) : Int :=
  if x % 2 ^ 64 < 2 ^ 63 then ((x % 2 ^ 64 : Nat) : Int)
  else ((x % 2 ^ 64 : Nat) : Int) - 2 ^ 64

/-- Go `int32(x)` applied to an unsigned value. -/
def int32OfUnsigned (x : Nat) : Int :=
  if x % 2 ^ 32 < 2 ^ 31 then ((x % 2 ^ 32 : Nat) : Int)
  else ((x % 2 ^ 32 : Nat) : Int) - 2 ^ 32

/-- `collector.Fields`: one immutable snapshot of runtime counters.
Field order and names follow the Go struct; the three environment strings
carry the `json:"-"` tag in the source and are excluded from the JSON
encoding. -/
structure Fields where
  numCpu : Int := 0
  numGoroutine : Int := 0
  numCgoCall : Int := 0
  alloc : Int := 0
  totalAlloc : Int := 0
  sys : Int := 0
  lookups : Int := 0
  mallocs : Int := 0
  frees : Int := 0
  heapAlloc : Int := 0
  heapSys : Int := 0
  heapIdle : Int := 0
  heapInuse : Int := 0
  heapReleased : Int := 0
  heapObjects : Int := 0
  stackInuse : Int := 0
  stackSys : Int := 0
  mspanInuse : Int := 0
  mspanSys : Int := 0
  mcacheInuse : Int := 0
  mcacheSys : Int := 0
  otherSys : Int := 0
  gcSys : Int := 0
  nextGC : Int := 0
  lastGC : Int := 0
  pauseTotalNs : Int := 0
  pauseNs : Int := 0
  numGC : Int := 0
  gcCPUFraction : Int := 0
  goarch : String := ""
  goos : String := ""
  version : String := ""
  deriving DecidableEq

/-- The Go zero value of `Fields` (`var fields Fields`). -/
def Fields.zero : Fields := {}

/-- The relevant slice of `runtime.MemStats`: every counter read by
`collectMemStats`.  `PauseNs` is a `[256]uint64` circular buffer in Go,
modelled as a list whose well-formedness is `pauseNs.length = 256`;
`NumGC` is a `uint32`. -/
structure MemStats where
  alloc : Nat := 0
  totalAlloc : Nat := 0
  sys : Nat := 0
  lookups : Nat := 0
  mallocs : Nat := 0
  frees : Nat := 0
  heapAlloc : Nat := 0
  heapSys : Nat := 0
  heapIdle : Nat := 0
  heapInuse : Nat := 0
  heapReleased : Nat := 0
  heapObjects : Nat := 0
  stackInuse : Nat := 0
  stackSys : Nat := 0
  mspanInuse : Nat := 0
  mspanSys : Nat := 0
  mcacheInuse : Nat := 0
  mcacheSys : Nat := 0
  otherSys : Nat := 0
  gcSys : Nat := 0
  nextGC : Nat := 0
  lastGC : Nat := 0
  pauseTotalNs : Nat := 0
  pauseNs : List Nat := List.replicate 256 0
  numGC : Nat := 0
  gcCPUFraction : Int := 0
  deriving DecidableEq

/-- The ring-buffer index `(m.NumGC+255)%256` of `collectMemStats`,
computed in Go `uint32` arithmetic: the sum wraps mod 2^32 before the
`%256`. -/
def pauseIndex (numGC : Nat) : Nat :=
  ((numGC + 255) % 2 ^ 32) % 256

/-- The record update performed by the body of `collectMemStats` once the
`PauseNs` entry `p` has been read; every assignment of the Go function in
source order. -/
def memUpdate (m : MemStats) (p : Nat) (f : Fields) : Fields :=
  { f with
    alloc := int64OfUnsigned m.alloc
    totalAlloc := int64OfUnsigned m.totalAlloc
    sys := int64OfUnsigned m.sys
    lookups := int64OfUnsigned m.lookups
    mallocs := int64OfUnsigned m.mallocs
    frees := int64OfUnsigned m.frees
    heapAlloc := int64OfUnsigned m.heapAlloc
    heapSys := int64OfUnsigned m.heapSys
    heapIdle := int64OfUnsigned m.heapIdle
    heapInuse := int64OfUnsigned m.heapInuse
    heapReleased := int64OfUnsigned m.heapReleased
    heapObjects := int64OfUnsigned m.heapObjects
    stackInuse := int64OfUnsigned m.stackInuse
    stackSys := int64OfUnsigned m.stackSys
    mspanInuse := int64OfUnsigned m.mspanInuse
    mspanSys := int64OfUnsigned m.mspanSys
    mcacheInuse := int64OfUnsigned m.mcacheInuse
    mcacheSys := int64OfUnsigned m.mcacheSys
    otherSys := int64OfUnsigned m.otherSys
    gcSys := int64OfUnsigned m.gcSys
    nextGC := int64OfUnsigned m.nextGC
    lastGC := int64OfUnsigned m.lastGC
    pauseTotalNs := int64OfUnsigned m.pauseTotalNs
    pauseNs := int64OfUnsigned p
    numGC := int32OfUnsigned m.numGC
    gcCPUFraction := m.gcCPUFraction }

/-- `collectMemStats`: reads `m.PauseNs[(m.NumGC+255)%256]` from the ring
buffer (`none` models an out-of-bounds array access fault) and fills the
memory fields of `f`. -/
def collectMemStats (m : MemStats) (f : Fields) : Option Fields :=
  (m.pauseNs.get? (pauseIndex m.numGC)).map fun p => memUpdate m p f

/-- The CPU counters read by `collectCPUStats`: `runtime.NumCPU()`,
`runtime.NumGoroutine()`, `runtime.NumCgoCall()`. -/
structure CPUStats where
  numCpu : Int := 0
  numGoroutine : Int := 0
  numCgoCall : Int := 0
  deriving DecidableEq

/-- `collectCPUStats`: fills the three CPU fields of `f`. -/
def collectCPUStats (r : CPUStats) (f : Fields) : Fields :=
  { f with numCpu := r.numCpu, numGoroutine := r.numGoroutine,
           numCgoCall := r.numCgoCall }

/-- The ambient runtime state a collection tick observes: the memory
counters, the CPU counters and the environment strings `runtime.GOOS`,
`runtime.GOARCH`, `runtime.Version()`. -/
structure RuntimeEnv where
  mem : MemStats := {}
  cpu : CPUStats := {}
  goos : String := "linux"
  goarch : String := "amd64"
  version : String := "go1.21"
  deriving DecidableEq

/-- `collector.Collector`: timer interval and the two enable flags (the
callback and Done channel are modelled separately, by the trace semantics
of `Run`). -/
structure Collector where
  pauseDur : Int := 10 * 1000000000
  enableCPU : Bool := true
  enableMem : Bool := true
  deriving DecidableEq

/-- `collector.New`: defaults — 10 second interval, CPU and memory
collection both enabled (a nil callback is replaced with a no-op). -/
def Collector.new : Collector := {}

/-- `Collector.CollectStats`: zero-valued `Fields`, then memory fields if
enabled, then CPU fields if enabled, then the always-populated environment
strings.  `none` only if the memory collection faulted. -/
def Collector.CollectStats (c : Collector) (env : RuntimeEnv) : Option Fields :=
  let afterMem : Option Fields :=
    if c.enableMem then collectMemStats env.mem Fields.zero else some Fields.zero
  afterMem.map fun f1 =>
    let f2 := if c.enableCPU then collectCPUStats env.cpu f1 else f1
    { f2 with goos := env.goos, goarch := env.goarch, version := env.version }

/-- `Fields.Tags`: the fixed three-key tag map, as an association list in
the literal order of the source. -/
def Fields.TagList (f : Fields) : List (String × String) :=
  [("go.os", f.goos), ("go.arch", f.goarch), ("go.version", f.version)]

/-- The JSON encoding of `Fields` as an association list: one entry per
struct field carrying a dotted-key tag, in declaration order; the three
`json:"-"` strings are omitted.  This is the `values` object the pull-mode
`Metrics` render emits. -/
def fieldsJSON (f : Fields) : List (String × Int) :=
  [("cpu.count", f.numCpu), ("cpu.goroutines", f.numGoroutine),
   ("cpu.cgo_calls", f.numCgoCall),
   ("mem.alloc", f.alloc), ("mem.total", f.totalAlloc), ("mem.sys", f.sys),
   ("mem.lookups", f.lookups), ("mem.malloc", f.mallocs), ("mem.frees", f.frees),
   ("mem.heap.alloc", f.heapAlloc), ("mem.heap.sys", f.heapSys),
   ("mem.heap.idle", f.heapIdle), ("mem.heap.inuse", f.heapInuse),
   ("mem.heap.released", f.heapReleased), ("mem.heap.objects", f.heapObjects),
   ("mem.stack.inuse", f.stackInuse), ("mem.stack.sys", f.stackSys),
   ("mem.stack.mspan_inuse", f.mspanInuse), ("mem.stack.mspan_sys", f.mspanSys),
   ("mem.stack.mcache_inuse", f.mcacheInuse), ("mem.stack.mcache_sys", f.mcacheSys),
   ("mem.othersys", f.otherSys),
   ("mem.gc.sys", f.gcSys), ("mem.gc.next", f.nextGC), ("mem.gc.last", f.lastGC),
   ("mem.gc.pause_total", f.pauseTotalNs), ("mem.gc.pause", f.pauseNs),
   ("mem.gc.count", f.numGC), ("mem.gc.cpu_fraction", f.gcCPUFraction)]

/-- The documented dotted keys, in the `Fields` struct-tag order. -/
def documentedKeys : List String :=
  ["cpu.count", "cpu.goroutines", "cpu.cgo_calls",
   "mem.alloc", "mem.total", "mem.sys", "mem.lookups", "mem.malloc", "mem.frees",
   "mem.heap.alloc", "mem.heap.sys", "mem.heap.idle", "mem.heap.inuse",
   "mem.heap.released", "mem.heap.objects",
   "mem.stack.inuse", "mem.stack.sys", "mem.stack.mspan_inuse",
   "mem.stack.mspan_sys", "mem.stack.mcache_inuse", "mem.stack.mcache_sys",
   "mem.othersys",
   "mem.gc.sys", "mem.gc.next", "mem.gc.last", "mem.gc.pause_total",
   "mem.gc.pause", "mem.gc.count", "mem.gc.cpu_fraction"]

/-- `influxdb.Point`: the Telegraf-compatible pull-mode output structure. -/
structure Point where
  name : String
  tags : List (String × String)
  values : List (String × Int)
  deriving DecidableEq

/-- `influxdb.Metrics(measurement)`: the pull-mode render function; each
invocation runs `collector.New(nil).CollectStats()` (defaults: both groups
enabled) and packages the snapshot. -/
def Metrics (measurement : String) (env : RuntimeEnv) : Option Point :=
  (Collector.new.CollectStats env).map fun v =>
    { name := measurement, tags := v.TagList, values := fieldsJSON v }

/-! ### Collector.Run trace semantics

`Run` is a select loop over the `Done` channel and the ticker channel.
Its behaviour is determined by the sequence in which those channel events
are delivered; a trace is that sequence.  Processing a tick performs one
complete (inline, atomic) callback invocation; a `Done` event makes the
loop return and nothing after it is processed. -/

/-- One delivered channel event of the `Run` select loop. -/
inductive RunEvent
  | tick
  | doneClosed
  deriving DecidableEq

/-- One observable action of the `Run` loop: a completed callback
invocation, or the method returning. -/
inductive RunAct
  | callbackCall
  | returned
  deriving DecidableEq

/-- The actions `Collector.Run` performs on a given event trace: each tick
produces exactly one callback invocation; the first `doneClosed` produces
`returned` and ends processing (events after it are never seen, since the
method has returned). -/
def runTrace : List RunEvent → List RunAct
  | [] => []
  | RunEvent.doneClosed :: _ => [RunAct.returned]
  | RunEvent.tick :: es => RunAct.callbackCall :: runTrace es

/-! ### Push-mode batching sender (`statsSender.loop`, v1)

The loop owns the batch and selects between the flush ticker and the point
channel.  Points are identified by `Nat` ids; a batch is the list of point
ids in append order.  The `Write` outcomes of the sink are an oracle indexed by
the attempt number (`ok n` is the outcome of the n-th write attempt,
counting from 0).  `newBatch` is deterministic in the (constant) config
and succeeded at construction, so the post-flush batch replacement
succeeds in the model. -/

/-- One delivered event of the sender loop select: a flush-ticker tick or
an incoming point from the channel. -/
inductive SendEvent
  | tick
  | point (p : Nat)
  deriving DecidableEq

/-- State of `statsSender.loop`: the current batch, the list of batches
successfully written to the sink (in order), and the number of write
attempts made so far. -/
structure SenderState where
  batch : List Nat
  written : List (List Nat)
  attempts : Nat
  deriving DecidableEq

/-- Sender-loop state at entry: fresh empty batch (created during
`newStatsSender`), nothing written, no attempts. -/
def initialSender : SenderState := ⟨[], [], 0⟩

/-- The point ids enqueued by a trace, in order. -/
def pointsOf : List SendEvent → List Nat
  | [] => []
  | SendEvent.tick :: es => pointsOf es
  | SendEvent.point p :: es => p :: pointsOf es

/-- One iteration of the `statsSender.loop` select.  On a tick: an empty
batch is skipped; otherwise `client.Write` is attempted — on failure the
error is logged and the batch retained, on success the batch is recorded
as written and replaced by a fresh one.  On a point: `AddPoint` appends it
to the current batch. -/
def stepSender (ok : Nat → Bool) (s : SenderState) : SendEvent → SenderState
  | SendEvent.point p => { s with batch := s.batch ++ [p] }
  | SendEvent.tick =>
    if s.batch.isEmpty then s
    else if ok s.attempts then
      { batch := [], written := s.written ++ [s.batch], attempts := s.attempts + 1 }
    else
      { s with attempts := s.attempts + 1 }

/-- Run the sender loop over a whole event trace. -/
def runSender (ok : Nat → Bool) (es : List SendEvent) : SenderState :=
  es.foldl (stepSender ok) initialSender

/-! ### onNewPoint blocking model (v1)

`pc` is created as `make(chan *influxDBClient.Point)` — an unbuffered
channel.  A send on an unbuffered channel completes only when the receiver
is ready; the sender loop receives from `pc` only while parked at its
select, not while it is inside the `client.Write` call of a flush. -/

/-- Where the sender-loop goroutine currently is. -/
inductive SenderLoopPos
  | atSelect
  | inFlushWrite
  deriving DecidableEq

/-- Whether the unbuffered-channel send in `onNewPoint` (`r.pc <- pt`)
completes without waiting for the sender loop, as a function of where that
loop currently is. -/
def enqueueCompletesWithoutWaiting : SenderLoopPos → Bool
  | SenderLoopPos.atSelect => true
  | SenderLoopPos.inFlushWrite => false

/-! ### Health-check (ping) loop, v1

The goroutine in `newStatsSender` ticks on `PingInterval`; on a failed
ping it records `lastPingError`; on a successful ping after a recorded
failure it builds a replacement client, closes the old one and swaps the
new one in.  Connection handles are numbered: the construction-time client
is handle 0 and each reconnect allocates the next number.  The reconnect
`newClient` call cannot fail in the model: `NewHTTPClient` fails only on a
malformed address, deterministic in the unchanged config that already
parsed at construction, and the ping failure inside `newClient` is dropped
by the shadowed `err` (see `newClientV1`). -/

/-- State of the ping goroutine. -/
structure PingState where
  clientId : Nat
  nextId : Nat
  lastPingFailed : Bool
  closed : List Nat
  deriving DecidableEq

/-- Ping-loop state at goroutine start: construction handle 0 live,
no recorded ping error, nothing closed. -/
def initialPing : PingState := ⟨0, 1, false, []⟩

/-- One tick of the ping loop, given the ping outcome of that tick. -/
def pingStep (s : PingState) (pingOk : Bool) : PingState :=
  if pingOk then
    if s.lastPingFailed then
      { clientId := s.nextId, nextId := s.nextId + 1, lastPingFailed := false,
        closed := s.closed ++ [s.clientId] }
    else s
  else
    { s with lastPingFailed := true }

/-- Run the ping loop over a list of per-tick ping outcomes. -/
def runPing (outcomes : List Bool) : PingState :=
  outcomes.foldl pingStep initialPing

/-! ### Configuration resolution -/

/-- One second of `time.Duration` (nanoseconds). -/
def oneSecond : Int := 1000000000

/-- v1 `Config` (runstats.go).  `time.Duration` is `int64` nanoseconds;
the logger is abstracted to whether one was supplied. -/
structure ConfigV1 where
  addr : String := ""
  database : String := ""
  username : String := ""
  password : String := ""
  meas : String := ""
  retentionPolicy : String := ""
  batchInterval : Int := 0
  pingInterval : Int := 0
  precision : String := ""
  collectionInterval : Int := 0
  disableCpu : Bool := false
  disableMem : Bool := false
  hasLogger : Bool := false
  deriving DecidableEq

/-- v1 `Config.init`, first guard: default database name. -/
def ConfigV1.fillDatabase (c : ConfigV1) : ConfigV1 :=
  if c.database = "" then { c with database := "stats" } else c

/-- v1 `Config.init`, second guard: default address. -/
def ConfigV1.fillAddr (c : ConfigV1) : ConfigV1 :=
  if c.addr = "" then { c with addr := "http://localhost:8086" } else c

/-- v1 `Config.init`, third guard: default measurement, suffixed with the
hostname (or ".unknown" when `os.Hostname` errors). -/
def ConfigV1.fillMeasurement (hostname : Option String) (c : ConfigV1) : ConfigV1 :=
  if c.meas = "" then
    match hostname with
    | none => { c with meas := "go.runtime" ++ ".unknown" }
    | some hn => { c with meas := "go.runtime" ++ "." ++ hn }
  else c

/-- v1 `Config.init`, fourth guard: default collection interval (10s). -/
def ConfigV1.fillCollection (c : ConfigV1) : ConfigV1 :=
  if c.collectionInterval = 0 then { c with collectionInterval := 10 * oneSecond }
  else c

/-- v1 `Config.init`, fifth guard: default batch interval (60s). -/
def ConfigV1.fillBatch (c : ConfigV1) : ConfigV1 :=
  if c.batchInterval = 0 then { c with batchInterval := 60 * oneSecond } else c

/-- v1 `Config.init`, sixth guard: default ping interval (60s). -/
def ConfigV1.fillPing (c : ConfigV1) : ConfigV1 :=
  if c.pingInterval = 0 then { c with pingInterval := 60 * oneSecond } else c

/-- v1 `Config.init`, last guard: default logger. -/
def ConfigV1.fillLogger (c : ConfigV1) : ConfigV1 :=
  if c.hasLogger then c else { c with hasLogger := true }

/-- v1 `Config.init` body applied to a non-nil config: the seven
fill-if-empty guards in source order. -/
def ConfigV1.fill (hostname : Option String) (c : ConfigV1) : ConfigV1 :=
  (((((c.fillDatabase.fillAddr.fillMeasurement
    hostname).fillCollection).fillBatch).fillPing).fillLogger)

/-- v1 `config.init()` as seen by the caller: on a nil pointer the guard
`config = &Config{}` rebinds a function-local copy of the pointer, so the
defaulting mutates a throwaway object and the pointer of the caller is still
nil afterwards; on a non-nil pointer the pointee is filled in place. -/
def configInitV1 (hostname : Option String) : Option ConfigV1 → Option ConfigV1
  | none => none
  | some c => some (c.fill hostname)

/-- v2 `Config` (pkg/metrics/runstats.go).  `FlushInterval` is a Go `uint`
in milliseconds. -/
structure ConfigV2 where
  addr : String := ""
  authToken : String := ""
  org : String := ""
  bucket : String := ""
  meas : String := ""
  flushInterval : Nat := 0
  collectionInterval : Int := 0
  disableCpu : Bool := false
  disableMem : Bool := false
  deriving DecidableEq

/-- v2 `Config.init`, first guard: default bucket name. -/
def ConfigV2.fillBucket (c : ConfigV2) : ConfigV2 :=
  if c.bucket = "" then { c with bucket := "stats" } else c

/-- v2 `Config.init`, second guard: default address. -/
def ConfigV2.fillAddr (c : ConfigV2) : ConfigV2 :=
  if c.addr = "" then { c with addr := "http://localhost:8086" } else c

/-- v2 `Config.init`, third guard: default measurement, hostname
suffixed. -/
def ConfigV2.fillMeasurement (hostname : Option String) (c : ConfigV2) : ConfigV2 :=
  if c.meas = "" then
    match hostname with
    | none => { c with meas := "go.runtime" ++ ".unknown" }
    | some hn => { c with meas := "go.runtime" ++ "." ++ hn }
  else c

/-- v2 `Config.init`, fourth guard: default collection interval (10s). -/
def ConfigV2.fillCollection (c : ConfigV2) : ConfigV2 :=
  if c.collectionInterval = 0 then { c with collectionInterval := 10 * oneSecond }
  else c

/-- v2 `Config.init`, last guard: default flush interval (60000ms). -/
def ConfigV2.fillFlush (c : ConfigV2) : ConfigV2 :=
  if c.flushInterval = 0 then { c with flushInterval := 60000 } else c

/-- v2 `Config.init` body applied to a non-nil config: the five
fill-if-empty guards in source order. -/
def ConfigV2.fill (hostname : Option String) (c : ConfigV2) : ConfigV2 :=
  (((c.fillBucket.fillAddr.fillMeasurement hostname).fillCollection).fillFlush)

/-- A Go runtime panic observable by the embedding. -/
inductive GoPanic
  | nilDeref
  deriving DecidableEq

/-- v2 `config.init()` as seen by the caller: the nil guard executes
`*config = Config{}`, a store through the nil receiver, which panics. -/
def configInitV2 (hostname : Option String) : Option ConfigV2 → Except GoPanic ConfigV2
  | none => Except.error GoPanic.nilDeref
  | some c => Except.ok (c.fill hostname)

/-! ### v1 sink construction (`newClient`, `newStatsSender`, `RunCollector`)

The InfluxDB client is abstracted to an oracle of call outcomes. -/

/-- Outcomes of the fallible sink calls made during v1 construction. -/
structure SinkOracle where
  httpClientOk : Bool
  pingOk : Bool
  createDbOk : Bool
  newBatchOk : Bool
  deriving DecidableEq

/-- A v1 construction error returned to the caller. -/
inductive StartErr
  | clientCreate
  | batchCreate
  deriving DecidableEq

/-- v1 `newClient`: fails when `NewHTTPClient` fails.  The subsequent ping
check assigns its wrapped error to an `err` freshly declared in the `if`
statement scope, shadowing the named return value; the bare `return`
therefore returns the outer `err`, still nil — a failed ping does NOT make
`newClient` fail. -/
def newClientV1 (o : SinkOracle) : Except StartErr Unit :=
  if o.httpClientOk then Except.ok () else Except.error StartErr.clientCreate

/-- v1 `newStatsSender`: builds the client (fatal on error), issues the
best-effort CREATE DATABASE (logged only), creates the initial batch
(fatal on error, closing the client), and starts the ping goroutine. -/
def newStatsSenderV1 (o : SinkOracle) (_c : ConfigV1) : Except StartErr Unit := do
  let _ ← newClientV1 o
  if o.newBatchOk then Except.ok () else Except.error StartErr.batchCreate

/-- v1 `RunCollector`: resolves the config, constructs the sender
(surfacing its error), then starts the batch loop and the collector loop
and returns nil.  On a nil config pointer, `config.init()` returns without
effect (see `configInitV1`) and the `config.Addr` read in
the `HTTPConfig` literal in `newStatsSender` dereferences nil.  An `ok` result
means the background loops were started. -/
def runCollectorV1 (o : SinkOracle) (hostname : Option String)
    (cfg : Option ConfigV1) : Except GoPanic (Except StartErr Unit) :=
  match configInitV1 hostname cfg with
  | none => Except.error GoPanic.nilDeref
  | some c => Except.ok (newStatsSenderV1 o c)

/-- v2 `RunCollector`: resolves the config (panicking on nil, see
`configInitV2`); `newStatsSender` in v2 returns no error, so construction
always succeeds and the collector loop is started. -/
def runCollectorV2 (hostname : Option String)
    (cfg : Option ConfigV2) : Except GoPanic Unit :=
  (configInitV2 hostname cfg).map fun _ => ()

/-- The three CPU-prefixed counters of a snapshot (`cpu.count`,
`cpu.goroutines`, `cpu.cgo_calls`), for comparing CPU groups between
snapshots. -/
def cpuFieldsOf (f : Fields) : List Int :=
  [f.numCpu, f.numGoroutine, f.numCgoCall]

/-- The twenty-six memory-group counters of a snapshot (everything
`collectMemStats` assigns), for comparing memory groups between
snapshots. -/
def memFieldsOf (f : Fields) : List Int :=
  [f.alloc, f.totalAlloc, f.sys, f.lookups, f.mallocs, f.frees,
   f.heapAlloc, f.heapSys, f.heapIdle, f.heapInuse, f.heapReleased,
   f.heapObjects, f.stackInuse, f.stackSys, f.mspanInuse, f.mspanSys,
   f.mcacheInuse, f.mcacheSys, f.otherSys, f.gcSys, f.nextGC, f.lastGC,
   f.pauseTotalNs, f.pauseNs, f.numGC, f.gcCPUFraction]

/-! ## Theorems -/

/-- The GC-pause ring-buffer index is always below 256. -/
theorem pauseIndex_lt (n : Nat) : pauseIndex n < 256 :=
  Nat.mod_lt _ (by norm_num)

/-- The `uint32` wrap before `%256` is invisible: the index equals the
direct `(NumGC+255)%256` of the runtime documentation, because 256
divides 2^32. -/
theorem pauseIndex_eq (n : Nat) : pauseIndex n = (n + 255) % 256 :=
  Nat.mod_mod_of_dvd _ ⟨2 ^ 24, by norm_num⟩

/-- C10: for every `MemStats` with its 256-element `PauseNs` buffer, the
read `m.PauseNs[(m.NumGC+255)%256]` in `collectMemStats` is in bounds for
every value of the `uint32` counter `NumGC` — the assignment never faults
— and the selected slot is the documented most-recently-completed-cycle
entry `(NumGC+255)%256`. -/
theorem c10_pause_ring_index (m : MemStats) (f : Fields)
    (hlen : m.pauseNs.length = 256) :
    (∃ g, collectMemStats m f = some g ∧
      g.pauseNs = int64OfUnsigned (m.pauseNs.getD ((m.numGC + 255) % 256) 0)) ∧
    pauseIndex m.numGC < 256 ∧ pauseIndex m.numGC = (m.numGC + 255) % 256 := by
  have hidx : pauseIndex m.numGC < m.pauseNs.length := by
    rw [hlen]; exact pauseIndex_lt _
  have hget : m.pauseNs.get? (pauseIndex m.numGC) =
      some (m.pauseNs.get ⟨pauseIndex m.numGC, hidx⟩) :=
    List.get?_eq_get hidx
  refine ⟨⟨memUpdate m (m.pauseNs.get ⟨pauseIndex m.numGC, hidx⟩) f, ?_, ?_⟩,
    pauseIndex_lt _, pauseIndex_eq _⟩
  · unfold collectMemStats
    rw [hget]
    rfl
  · have hgetE : m.pauseNs[pauseIndex m.numGC]? =
        some (m.pauseNs.get ⟨pauseIndex m.numGC, hidx⟩) := by
      rw [← List.get?_eq_getElem?]
      exact hget
    have hgetD : m.pauseNs.getD ((m.numGC + 255) % 256) 0 =
        m.pauseNs.get ⟨pauseIndex m.numGC, hidx⟩ := by
      rw [← pauseIndex_eq, List.getD_eq_getElem?_getD, hgetE]
      rfl
    rw [hgetD]
    simp [memUpdate]

/-- C10 witness: the zero `MemStats` (buffer of 256 zeros) evaluated
concretely. -/
theorem c10_pause_ring_index_witness :
    (∃ g, collectMemStats {} Fields.zero = some g ∧
      g.pauseNs =
        int64OfUnsigned ((List.replicate 256 0).getD ((0 + 255) % 256) 0)) ∧
    pauseIndex 0 < 256 ∧ pauseIndex 0 = (0 + 255) % 256 :=
  c10_pause_ring_index {} Fields.zero (List.length_replicate 256 0)

/-- C9: calling `RunCollector` on a nil config pointer panics with a
nil-pointer dereference in both variants, instead of substituting a
defaulted configuration: in v1 `Config.init` rebinds a local copy of the
pointer and `newStatsSender` then reads `config.Addr` through nil; in v2
the guard itself stores through the nil receiver. -/
theorem c9_nil_config_panics (o : SinkOracle) (hostname : Option String) :
    runCollectorV1 o hostname none = Except.error GoPanic.nilDeref ∧
    runCollectorV2 hostname none = Except.error GoPanic.nilDeref :=
  ⟨rfl, rfl⟩

/-- C9 witness: a concrete oracle and hostname. -/
theorem c9_nil_config_panics_witness :
    runCollectorV1 ⟨true, true, true, true⟩ (some "h") none =
      Except.error GoPanic.nilDeref ∧
    runCollectorV2 (some "h") none = Except.error GoPanic.nilDeref :=
  c9_nil_config_panics ⟨true, true, true, true⟩ (some "h")

/-- C2, evaluated at the failing input: with the HTTP client constructed
but the initial ping failing, v1 `RunCollector` returns a nil error and
starts the background loops.  The claim (and the evident intent of the code — the
wrapped "failed to ping influxDB client" error) says a non-nil error must
be returned; the wrap lands in an `err` shadowed inside the `if` scope of
`newClient` and the bare `return` yields the still-nil named return. -/
theorem c2_ping_failure_not_surfaced :
    runCollectorV1 ⟨true, false, true, true⟩ (some "host") (some {}) =
      Except.ok (Except.ok ()) := rfl

/-- C8 counterexample: while the sender loop is inside a flush write, the
unbuffered-channel send of `onNewPoint` does not complete — the enqueue is
not unconditionally a bounded local operation, contrary to the wording of the claim:
"regardless of the state of the batch loop or the sink". -/
theorem c8_counterexample :
    enqueueCompletesWithoutWaiting SenderLoopPos.inFlushWrite = false := rfl

/-- C8 amended: the v1 `onNewPoint` send is a rendezvous on the unbuffered
point channel; it completes without waiting exactly when the batch loop is
parked at its select, and blocks for the duration of any in-progress flush
write otherwise. -/
theorem c8_enqueue_rendezvous (pos : SenderLoopPos) :
    enqueueCompletesWithoutWaiting pos = true ↔ pos = SenderLoopPos.atSelect := by
  cases pos <;> simp [enqueueCompletesWithoutWaiting]

/-- C8 witness: at the select point the enqueue completes without
waiting. -/
theorem c8_enqueue_rendezvous_witness :
    enqueueCompletesWithoutWaiting SenderLoopPos.atSelect = true :=
  (c8_enqueue_rendezvous SenderLoopPos.atSelect).mpr rfl

/-- C3 counterexample: a config carrying a negative collection interval
(-1ns) passes through `Config.init` unchanged — the fill-if-empty guard
only replaces exact zero — so not every input yields strictly positive
durations after resolution. -/
theorem c3_counterexample :
    ¬ 0 < (ConfigV1.fill (some "h")
        { collectionInterval := -1 : ConfigV1 }).collectionInterval := by
  decide

/-- The database guard changes no duration field. -/
theorem fillDatabase_durations (c : ConfigV1) :
    c.fillDatabase.collectionInterval = c.collectionInterval ∧
    c.fillDatabase.batchInterval = c.batchInterval ∧
    c.fillDatabase.pingInterval = c.pingInterval := by
  unfold ConfigV1.fillDatabase; split <;> exact ⟨rfl, rfl, rfl⟩

/-- The address guard changes no duration field. -/
theorem fillAddr_durations (c : ConfigV1) :
    c.fillAddr.collectionInterval = c.collectionInterval ∧
    c.fillAddr.batchInterval = c.batchInterval ∧
    c.fillAddr.pingInterval = c.pingInterval := by
  unfold ConfigV1.fillAddr; split <;> exact ⟨rfl, rfl, rfl⟩

/-- The measurement guard changes no duration field. -/
theorem fillMeasurement_durations (hn : Option String) (c : ConfigV1) :
    (c.fillMeasurement hn).collectionInterval = c.collectionInterval ∧
    (c.fillMeasurement hn).batchInterval = c.batchInterval ∧
    (c.fillMeasurement hn).pingInterval = c.pingInterval := by
  unfold ConfigV1.fillMeasurement
  split
  · cases hn <;> exact ⟨rfl, rfl, rfl⟩
  · exact ⟨rfl, rfl, rfl⟩

/-- The logger guard changes no duration field. -/
theorem fillLogger_durations (c : ConfigV1) :
    c.fillLogger.collectionInterval = c.collectionInterval ∧
    c.fillLogger.batchInterval = c.batchInterval ∧
    c.fillLogger.pingInterval = c.pingInterval := by
  unfold ConfigV1.fillLogger; split <;> exact ⟨rfl, rfl, rfl⟩

/-- The collection-interval guard defaults exactly the zero value and
leaves the other durations alone. -/
theorem fillCollection_durations (c : ConfigV1) :
    c.fillCollection.collectionInterval =
      (if c.collectionInterval = 0 then 10 * oneSecond else c.collectionInterval) ∧
    c.fillCollection.batchInterval = c.batchInterval ∧
    c.fillCollection.pingInterval = c.pingInterval := by
  unfold ConfigV1.fillCollection
  split <;> exact ⟨rfl, rfl, rfl⟩

/-- The batch-interval guard defaults exactly the zero value and leaves
the other durations alone. -/
theorem fillBatch_durations (c : ConfigV1) :
    c.fillBatch.collectionInterval = c.collectionInterval ∧
    c.fillBatch.batchInterval =
      (if c.batchInterval = 0 then 60 * oneSecond else c.batchInterval) ∧
    c.fillBatch.pingInterval = c.pingInterval := by
  unfold ConfigV1.fillBatch
  split <;> exact ⟨rfl, rfl, rfl⟩

/-- The ping-interval guard defaults exactly the zero value and leaves
the other durations alone. -/
theorem fillPing_durations (c : ConfigV1) :
    c.fillPing.collectionInterval = c.collectionInterval ∧
    c.fillPing.batchInterval = c.batchInterval ∧
    c.fillPing.pingInterval =
      (if c.pingInterval = 0 then 60 * oneSecond else c.pingInterval) := by
  unfold ConfigV1.fillPing
  split <;> exact ⟨rfl, rfl, rfl⟩

/-- The duration fields of a fully resolved v1 config: each is its input
value with zero replaced by the default. -/
theorem fillV1_durations (hn : Option String) (c : ConfigV1) :
    (c.fill hn).collectionInterval =
      (if c.collectionInterval = 0 then 10 * oneSecond else c.collectionInterval) ∧
    (c.fill hn).batchInterval =
      (if c.batchInterval = 0 then 60 * oneSecond else c.batchInterval) ∧
    (c.fill hn).pingInterval =
      (if c.pingInterval = 0 then 60 * oneSecond else c.pingInterval) := by
  unfold ConfigV1.fill
  refine ⟨?_, ?_, ?_⟩
  · rw [(fillLogger_durations _).1, (fillPing_durations _).1,
      (fillBatch_durations _).1, (fillCollection_durations _).1,
      (fillMeasurement_durations _ _).1, (fillAddr_durations _).1,
      (fillDatabase_durations _).1]
  · rw [(fillLogger_durations _).2.1, (fillPing_durations _).2.1,
      (fillBatch_durations _).2.1, (fillCollection_durations _).2.1,
      (fillMeasurement_durations _ _).2.1, (fillAddr_durations _).2.1,
      (fillDatabase_durations _).2.1]
  · rw [(fillLogger_durations _).2.2, (fillPing_durations _).2.2,
      (fillBatch_durations _).2.2, (fillCollection_durations _).2.2,
      (fillMeasurement_durations _ _).2.2, (fillAddr_durations _).2.2,
      (fillDatabase_durations _).2.2]

/-- The v2 bucket guard changes no duration field. -/
theorem fillBucket_durations (c : ConfigV2) :
    c.fillBucket.collectionInterval = c.collectionInterval ∧
    c.fillBucket.flushInterval = c.flushInterval := by
  unfold ConfigV2.fillBucket; split <;> exact ⟨rfl, rfl⟩

/-- The v2 address guard changes no duration field. -/
theorem fillAddrV2_durations (c : ConfigV2) :
    c.fillAddr.collectionInterval = c.collectionInterval ∧
    c.fillAddr.flushInterval = c.flushInterval := by
  unfold ConfigV2.fillAddr; split <;> exact ⟨rfl, rfl⟩

/-- The v2 measurement guard changes no duration field. -/
theorem fillMeasurementV2_durations (hn : Option String) (c : ConfigV2) :
    (c.fillMeasurement hn).collectionInterval = c.collectionInterval ∧
    (c.fillMeasurement hn).flushInterval = c.flushInterval := by
  unfold ConfigV2.fillMeasurement
  split
  · cases hn <;> exact ⟨rfl, rfl⟩
  · exact ⟨rfl, rfl⟩

/-- The v2 collection-interval guard defaults exactly the zero value. -/
theorem fillCollectionV2_durations (c : ConfigV2) :
    c.fillCollection.collectionInterval =
      (if c.collectionInterval = 0 then 10 * oneSecond else c.collectionInterval) ∧
    c.fillCollection.flushInterval = c.flushInterval := by
  unfold ConfigV2.fillCollection
  split <;> exact ⟨rfl, rfl⟩

/-- The v2 flush-interval guard defaults exactly the zero value. -/
theorem fillFlush_durations (c : ConfigV2) :
    c.fillFlush.collectionInterval = c.collectionInterval ∧
    c.fillFlush.flushInterval =
      (if c.flushInterval = 0 then 60000 else c.flushInterval) := by
  unfold ConfigV2.fillFlush
  split <;> exact ⟨rfl, rfl⟩

/-- The duration fields of a fully resolved v2 config. -/
theorem fillV2_durations (hn : Option String) (c : ConfigV2) :
    (c.fill hn).collectionInterval =
      (if c.collectionInterval = 0 then 10 * oneSecond else c.collectionInterval) ∧
    (c.fill hn).flushInterval =
      (if c.flushInterval = 0 then 60000 else c.flushInterval) := by
  unfold ConfigV2.fill
  refine ⟨?_, ?_⟩
  · rw [(fillFlush_durations _).1, (fillCollectionV2_durations _).1,
      (fillMeasurementV2_durations _ _).1, (fillAddrV2_durations _).1,
      (fillBucket_durations _).1]
  · rw [(fillFlush_durations _).2, (fillCollectionV2_durations _).2,
      (fillMeasurementV2_durations _ _).2, (fillAddrV2_durations _).2,
      (fillBucket_durations _).2]

/-- C3 amended: after `Config.init`, every duration field that was zero is
replaced by its strictly positive default; hence whenever every supplied
duration is non-negative, every duration field is strictly positive after
resolution (v1: collection, batch and ping intervals; v2: collection and
flush intervals, the latter unsigned). -/
theorem c3_durations_positive :
    (∀ (c : ConfigV1) (hn : Option String),
      0 ≤ c.collectionInterval → 0 ≤ c.batchInterval → 0 ≤ c.pingInterval →
      0 < (c.fill hn).collectionInterval ∧ 0 < (c.fill hn).batchInterval ∧
        0 < (c.fill hn).pingInterval) ∧
    (∀ (c : ConfigV2) (hn : Option String),
      0 ≤ c.collectionInterval →
      0 < (c.fill hn).collectionInterval ∧ 0 < (c.fill hn).flushInterval) := by
  constructor
  · intro c hn h1 h2 h3
    obtain ⟨e1, e2, e3⟩ := fillV1_durations hn c
    rw [e1, e2, e3]
    refine ⟨?_, ?_, ?_⟩ <;> split
    next h => norm_num [oneSecond]
    next h => omega
    next h => norm_num [oneSecond]
    next h => omega
    next h => norm_num [oneSecond]
    next h => omega
  · intro c hn h1
    obtain ⟨e1, e2⟩ := fillV2_durations hn c
    rw [e1, e2]
    refine ⟨?_, ?_⟩ <;> split
    next h => norm_num [oneSecond]
    next h => omega
    next h => norm_num
    next h => omega

/-- C3 witness: the all-defaults configs, whose durations are all zero,
resolve to strictly positive durations. -/
theorem c3_durations_positive_witness :
    (0 < (ConfigV1.fill (some "h") {}).collectionInterval ∧
      0 < (ConfigV1.fill (some "h") {}).batchInterval ∧
      0 < (ConfigV1.fill (some "h") {}).pingInterval) ∧
    (0 < (ConfigV2.fill (some "h") {}).collectionInterval ∧
      0 < (ConfigV2.fill (some "h") {}).flushInterval) :=
  ⟨c3_durations_positive.1 {} (some "h") (by decide) (by decide) (by decide),
   c3_durations_positive.2 {} (some "h") (by decide)⟩

/-- C4: on any trace in which some all-tick prefix is followed by the
close of `Done`, `Run` performs exactly one complete callback invocation
per tick of the prefix (each invocation inline and atomic, never
interrupted), then returns when `Done` is closed and performs no further
invocation whatever events would follow. -/
theorem c4_run_callback_per_tick (pre post : List RunEvent)
    (h : ∀ e ∈ pre, e = RunEvent.tick) :
    runTrace (pre ++ RunEvent.doneClosed :: post) =
      List.replicate pre.length RunAct.callbackCall ++ [RunAct.returned] := by
  induction pre with
  | nil => rfl
  | cons e es ih =>
    have he : e = RunEvent.tick := h e (List.mem_cons_self e es)
    subst he
    have ih2 := ih fun x hx => h x (List.mem_cons_of_mem _ hx)
    rw [List.cons_append]
    have hstep : runTrace (RunEvent.tick :: (es ++ RunEvent.doneClosed :: post)) =
        RunAct.callbackCall :: runTrace (es ++ RunEvent.doneClosed :: post) := rfl
    rw [hstep, ih2, List.length_cons, List.replicate_succ, List.cons_append]

/-- C4 witness: three ticks of a 1-unit interval followed by closing
`Done` yield exactly three callback invocations and the return. -/
theorem c4_run_callback_per_tick_witness :
    runTrace (List.replicate 3 RunEvent.tick ++ RunEvent.doneClosed ::
        [RunEvent.tick]) =
      List.replicate (List.replicate 3 RunEvent.tick).length
        RunAct.callbackCall ++ [RunAct.returned] :=
  c4_run_callback_per_tick (List.replicate 3 RunEvent.tick) [RunEvent.tick]
    (by decide)

/-- While pings keep failing, the ping loop only records the failure: the
degraded state is absorbing for failing ticks. -/
theorem pingFail_foldl (k : Nat) :
    List.foldl pingStep ⟨0, 1, true, []⟩ (List.replicate k false) =
      ⟨0, 1, true, []⟩ := by
  induction k with
  | zero => rfl
  | succ n ih =>
    rw [List.replicate_succ, List.foldl_cons]
    exact ih

/-- C5: in the health-check loop, for every number k ≥ 1 of failing ping
ticks: after the failures alone the construction handle 0 is still live,
nothing has been closed and no replacement handle exists (no swap while
pings keep failing); after the first subsequent successful ping, exactly
one new handle (number 1) has been created and swapped in and the old
handle 0 has been closed exactly once. -/
theorem c5_reconnect_swap (k : Nat) (hk : 1 ≤ k) :
    runPing (List.replicate k false) = ⟨0, 1, true, []⟩ ∧
    runPing (List.replicate k false ++ [true]) = ⟨1, 2, false, [0]⟩ := by
  have hfail : runPing (List.replicate k false) = ⟨0, 1, true, []⟩ := by
    cases k with
    | zero => exact absurd hk (by decide)
    | succ n =>
      unfold runPing
      rw [List.replicate_succ, List.foldl_cons]
      exact pingFail_foldl n
  refine ⟨hfail, ?_⟩
  unfold runPing
  rw [List.foldl_append]
  have : List.foldl pingStep initialPing (List.replicate k false) =
      ⟨0, 1, true, []⟩ := hfail
  rw [this]
  rfl

/-- C5 witness: three failing ticks then a success. -/
theorem c5_reconnect_swap_witness :
    runPing (List.replicate 3 false) = ⟨0, 1, true, []⟩ ∧
    runPing (List.replicate 3 false ++ [true]) = ⟨1, 2, false, [0]⟩ :=
  c5_reconnect_swap 3 (by decide)

/-- Conservation of points in the sender loop: from any state, the points
written so far together with the current batch grow exactly by the points
enqueued — ticks (successful or failed flushes) never lose a point. -/
theorem senderInv (ok : Nat → Bool) :
    ∀ (es : List SendEvent) (s : SenderState),
      (es.foldl (stepSender ok) s).written.flatten ++
          (es.foldl (stepSender ok) s).batch =
        s.written.flatten ++ s.batch ++ pointsOf es := by
  intro es
  induction es with
  | nil => intro s; simp [pointsOf]
  | cons e es ih =>
    intro s
    rw [List.foldl_cons, ih]
    cases e with
    | point p => simp [stepSender, pointsOf, List.append_assoc]
    | tick =>
      by_cases hb : s.batch.isEmpty
      · simp [stepSender, hb, pointsOf]
      · by_cases hok : ok s.attempts
        · simp [stepSender, hb, hok, pointsOf, List.append_assoc]
        · simp [stepSender, hb, hok, pointsOf]

/-- Specialisation to a whole run from the fresh initial state: written
batches plus the live batch are exactly the enqueued points. -/
theorem runSender_points (ok : Nat → Bool) (es : List SendEvent) :
    (runSender ok es).written.flatten ++ (runSender ok es).batch = pointsOf es := by
  have h := senderInv ok es initialSender
  simpa [runSender, initialSender] using h

/-- C1: in the push-mode batch loop, failed flushes retain the batch and
keep appending.  With a sink failing the first N write attempts and
succeeding afterwards: whenever a trace has produced no successful flush
yet (`written = []`), its batch is non-empty and the N failures have all
happened, the next flush tick succeeds and the batch it delivers is
exactly every point enqueued since the start (the last success) — no point
is dropped by a failed flush — after which a fresh empty batch starts. -/
theorem c1_failed_flush_retains (N : Nat) (es : List SendEvent)
    (hw : (runSender (fun i => decide (N ≤ i)) es).written = [])
    (hb : (runSender (fun i => decide (N ≤ i)) es).batch ≠ [])
    (ha : N ≤ (runSender (fun i => decide (N ≤ i)) es).attempts) :
    stepSender (fun i => decide (N ≤ i))
        (runSender (fun i => decide (N ≤ i)) es) SendEvent.tick =
      { batch := [], written := [pointsOf es],
        attempts := (runSender (fun i => decide (N ≤ i)) es).attempts + 1 } := by
  have hinv := runSender_points (fun i => decide (N ≤ i)) es
  rw [hw] at hinv
  simp only [List.flatten_nil, List.nil_append] at hinv
  have hempty : (runSender (fun i => decide (N ≤ i)) es).batch.isEmpty = false := by
    cases hcase : (runSender (fun i => decide (N ≤ i)) es).batch with
    | nil => exact absurd hcase hb
    | cons a l => rfl
  have hok : decide (N ≤ (runSender (fun i => decide (N ≤ i)) es).attempts) = true :=
    decide_eq_true ha
  have hni : (pointsOf es).isEmpty = false := by
    rw [← hinv]; exact hempty
  simp [stepSender, hinv, hni, hok, hw]

/-- C1 witness: two failed flush ticks with points arriving throughout;
the third tick succeeds and delivers all three points. -/
theorem c1_failed_flush_retains_witness :
    stepSender (fun i => decide (2 ≤ i))
        (runSender (fun i => decide (2 ≤ i))
          [SendEvent.point 1, SendEvent.tick, SendEvent.point 2,
           SendEvent.tick, SendEvent.point 3]) SendEvent.tick =
      { batch := [],
        written := [pointsOf [SendEvent.point 1, SendEvent.tick,
          SendEvent.point 2, SendEvent.tick, SendEvent.point 3]],
        attempts := (runSender (fun i => decide (2 ≤ i))
          [SendEvent.point 1, SendEvent.tick, SendEvent.point 2,
           SendEvent.tick, SendEvent.point 3]).attempts + 1 } :=
  c1_failed_flush_retains 2
    [SendEvent.point 1, SendEvent.tick, SendEvent.point 2,
     SendEvent.tick, SendEvent.point 3]
    (by decide) (by decide) (by decide)

/-- C6: for every runtime state with a well-formed pause buffer, disabling
CPU collection yields a snapshot whose three CPU-prefixed fields are the
zero values while all memory fields equal those of the fully enabled
snapshot; disabling memory collection yields zero-valued memory fields
while the CPU fields equal those of the fully enabled snapshot. -/
theorem c6_enable_flags (env : RuntimeEnv) (d : Int)
    (hlen : env.mem.pauseNs.length = 256) :
    (∃ f g, Collector.CollectStats ⟨d, false, true⟩ env = some f ∧
      Collector.CollectStats ⟨d, true, true⟩ env = some g ∧
      cpuFieldsOf f = cpuFieldsOf Fields.zero ∧ memFieldsOf f = memFieldsOf g) ∧
    (∃ f g, Collector.CollectStats ⟨d, true, false⟩ env = some f ∧
      Collector.CollectStats ⟨d, true, true⟩ env = some g ∧
      memFieldsOf f = memFieldsOf Fields.zero ∧ cpuFieldsOf f = cpuFieldsOf g) := by
  have hidx : pauseIndex env.mem.numGC < env.mem.pauseNs.length := by
    rw [hlen]; exact pauseIndex_lt _
  have hget : env.mem.pauseNs.get? (pauseIndex env.mem.numGC) =
      some (env.mem.pauseNs.get ⟨pauseIndex env.mem.numGC, hidx⟩) :=
    List.get?_eq_get hidx
  have hcm : collectMemStats env.mem Fields.zero =
      some (memUpdate env.mem
        (env.mem.pauseNs.get ⟨pauseIndex env.mem.numGC, hidx⟩) Fields.zero) := by
    unfold collectMemStats
    rw [hget]
    rfl
  constructor
  · refine ⟨{ memUpdate env.mem
        (env.mem.pauseNs.get ⟨pauseIndex env.mem.numGC, hidx⟩) Fields.zero with
        goos := env.goos, goarch := env.goarch, version := env.version },
      { collectCPUStats env.cpu (memUpdate env.mem
        (env.mem.pauseNs.get ⟨pauseIndex env.mem.numGC, hidx⟩) Fields.zero) with
        goos := env.goos, goarch := env.goarch, version := env.version },
      ?_, ?_, ?_, ?_⟩
    · simp [Collector.CollectStats, hcm]
    · simp [Collector.CollectStats, hcm]
    · simp [cpuFieldsOf, memUpdate, Fields.zero]
    · simp [memFieldsOf, collectCPUStats]
  · refine ⟨{ collectCPUStats env.cpu Fields.zero with
        goos := env.goos, goarch := env.goarch, version := env.version },
      { collectCPUStats env.cpu (memUpdate env.mem
        (env.mem.pauseNs.get ⟨pauseIndex env.mem.numGC, hidx⟩) Fields.zero) with
        goos := env.goos, goarch := env.goarch, version := env.version },
      ?_, ?_, ?_, ?_⟩
    · simp [Collector.CollectStats]
    · simp [Collector.CollectStats, hcm]
    · simp [memFieldsOf, collectCPUStats]
    · simp [cpuFieldsOf, collectCPUStats]

/-- C6 witness: the default runtime environment (pause buffer of 256
zeros) with a 0ns interval. -/
theorem c6_enable_flags_witness :
    (∃ f g, Collector.CollectStats ⟨0, false, true⟩ {} = some f ∧
      Collector.CollectStats ⟨0, true, true⟩ {} = some g ∧
      cpuFieldsOf f = cpuFieldsOf Fields.zero ∧ memFieldsOf f = memFieldsOf g) ∧
    (∃ f g, Collector.CollectStats ⟨0, true, false⟩ {} = some f ∧
      Collector.CollectStats ⟨0, true, true⟩ {} = some g ∧
      memFieldsOf f = memFieldsOf Fields.zero ∧ cpuFieldsOf f = cpuFieldsOf g) :=
  c6_enable_flags {} 0 (List.length_replicate 256 0)

/-- C7: for every runtime state with a well-formed pause buffer, the
pull-mode render returns a Point whose tag map holds exactly the three
keys go.os, go.arch and go.version bound to the always-populated runtime
environment values, and whose values map holds exactly the documented
dotted keys — including cpu.goroutines, mem.lookups and mem.gc.count. -/
theorem c7_pull_render_shape (meas : String) (env : RuntimeEnv)
    (hlen : env.mem.pauseNs.length = 256) :
    ∃ pt, Metrics meas env = some pt ∧
      pt.tags = [("go.os", env.goos), ("go.arch", env.goarch),
        ("go.version", env.version)] ∧
      pt.values.map Prod.fst = documentedKeys ∧
      "cpu.goroutines" ∈ pt.values.map Prod.fst ∧
      "mem.lookups" ∈ pt.values.map Prod.fst ∧
      "mem.gc.count" ∈ pt.values.map Prod.fst := by
  have hidx : pauseIndex env.mem.numGC < env.mem.pauseNs.length := by
    rw [hlen]; exact pauseIndex_lt _
  have hget : env.mem.pauseNs.get? (pauseIndex env.mem.numGC) =
      some (env.mem.pauseNs.get ⟨pauseIndex env.mem.numGC, hidx⟩) :=
    List.get?_eq_get hidx
  have hcm : collectMemStats env.mem Fields.zero =
      some (memUpdate env.mem
        (env.mem.pauseNs.get ⟨pauseIndex env.mem.numGC, hidx⟩) Fields.zero) := by
    unfold collectMemStats
    rw [hget]
    rfl
  refine ⟨Point.mk meas
      (Fields.TagList { collectCPUStats env.cpu (memUpdate env.mem
        (env.mem.pauseNs.get ⟨pauseIndex env.mem.numGC, hidx⟩) Fields.zero) with
        goos := env.goos, goarch := env.goarch, version := env.version })
      (fieldsJSON { collectCPUStats env.cpu (memUpdate env.mem
        (env.mem.pauseNs.get ⟨pauseIndex env.mem.numGC, hidx⟩) Fields.zero) with
        goos := env.goos, goarch := env.goarch, version := env.version }),
    ?_, ?_, ?_, ?_, ?_, ?_⟩
  · simp [Metrics, Collector.new, Collector.CollectStats, hcm]
  · simp [Fields.TagList]
  · simp [fieldsJSON, documentedKeys]
  · simp [fieldsJSON]
  · simp [fieldsJSON]
  · simp [fieldsJSON]

/-- C7 witness: the default runtime environment and measurement name
"app". -/
theorem c7_pull_render_shape_witness :
    ∃ pt, Metrics "app" {} = some pt ∧
      pt.tags = [("go.os", ({} : RuntimeEnv).goos),
        ("go.arch", ({} : RuntimeEnv).goarch),
        ("go.version", ({} : RuntimeEnv).version)] ∧
      pt.values.map Prod.fst = documentedKeys ∧
      "cpu.goroutines" ∈ pt.values.map Prod.fst ∧
      "mem.lookups" ∈ pt.values.map Prod.fst ∧
      "mem.gc.count" ∈ pt.values.map Prod.fst :=
  c7_pull_render_shape "app" {} (List.length_replicate 256 0)

end RunMetrics
